import Mathlib

/-!
Shallow embedding of the Vincenty geodesic solvers of tsmap3d
(src/tsmap3d/vincenty.js) over the real numbers, together with proofs
about the claims of the specification.

Modelling conventions:
* JS numbers are modelled by `ℝ`; the code under study never relies on
  floating-point rounding for its control flow except through the explicit
  tolerances (`1e-10`, `1e-12`, `1e-16`), which are kept as exact rationals.
* `assert` (funcutils) throws, modelled by `Except String`.
* The JS remainder operator `%` truncates toward zero and keeps the sign of
  the dividend; it is modelled by `jsRem`.
* `Math.atan2`, `Math.sign` are modelled by `atan2` and `sign` below with
  their JS semantics on (non-NaN) reals.
* `sinsigma.real` is the Python float `.real` attribute (the code is a
  mechanical Python translation), i.e. the identity on a real number.
* `isnan` guards cannot fire in the real-valued model (ℝ has no NaN), and
  `x / 0 = 0` in Lean matches the guarded uses below (the guarded division
  in `vdist` is taken through `notZero`, modelled explicitly; the one
  unguarded division with a possibly-zero denominator, `0 / cos²(π/2)` in
  `cos2sigmam`, has a zero numerator whenever its denominator is zero).
* The unbounded `while` of `vreckon` is totalized by an explicit fuel
  argument; the capped `while` of `vdist` needs no fuel beyond its own
  50-pass cap, which is part of the source.
-/

namespace Tsmap3d

noncomputable section

open Real

/-- JS Math.sign on a real number. -/
def sign (x : ℝ) : ℝ := if 0 < x then 1 else if x < 0 then -1 else 0

/-- degreesToRadians from mathfun.js. -/
def radians (d : ℝ) : ℝ := d * (Real.pi / 180)

/-- radiansToDegrees from mathfun.js. -/
def degrees (r : ℝ) : ℝ := r * (180 / Real.pi)

/-- Truncation toward zero, as the JS remainder operator performs. -/
def jsTrunc (x : ℝ) : ℝ := if 0 ≤ x then (⌊x⌋ : ℝ) else (⌈x⌉ : ℝ)

/-- JS remainder operator `x % y`: the result has the sign of the dividend. -/
def jsRem (x y : ℝ) : ℝ := x - y * jsTrunc (x / y)

/-- JS Math.atan2 on real (non-NaN) arguments. -/
def atan2 (y x : ℝ) : ℝ :=
  if 0 < x then Real.arctan (y / x)
  else if x < 0 then
    (if 0 ≤ y then Real.arctan (y / x) + Real.pi else Real.arctan (y / x) - Real.pi)
  else
    (if 0 < y then Real.pi / 2 else if y < 0 then -(Real.pi / 2) else 0)

/-- Ellipsoid from ellipsoid.js: both semi-axes in meters. -/
structure Ellipsoid where
  semimajor_axis : ℝ
  semiminor_axis : ℝ

/-- Flattening, computed in the Ellipsoid constructor as `(a - b) / a`. -/
def Ellipsoid.flattening (e : Ellipsoid) : ℝ :=
  (e.semimajor_axis - e.semiminor_axis) / e.semimajor_axis

/-- The WGS-84 ellipsoid constant of ellipsoid.js. -/
def wgs84 : Ellipsoid := ⟨6378137.0, 6356752.31424518⟩

/-- Pole nudge of vdist/vreckon: a latitude (radians) within `1e-10` of a
pole is moved `1e-10` inward, keeping its sign. -/
def nudge (x : ℝ) : ℝ :=
  if abs (Real.pi / 2 - abs x) < 1e-10 then sign x * (Real.pi / 2 - 1e-10) else x

/-- Reduced latitude of vdist: `atan((1 - f)·tan(lat))` after the pole
nudge, from a latitude given in degrees. -/
def reducedLat (f Lat : ℝ) : ℝ :=
  Real.arctan ((1 - f) * Real.tan (nudge (radians Lat)))

/-- Longitude difference of vdist: absolute difference reduced to [0, π]. -/
def vdistL (lon1 lon2 : ℝ) : ℝ :=
  let L0 := |lon2 - lon1|
  if Real.pi < L0 then 2 * Real.pi - L0 else L0

/-- The `sinsigma` expression of the vdist loop body (line 113). -/
def vdistSinsigma (U1 U2 lamb : ℝ) : ℝ :=
  Real.sqrt ((Real.cos U2 * Real.sin lamb) ^ 2 +
    (Real.cos U1 * Real.sin U2 - Real.sin U1 * Real.cos U2 * Real.cos lamb) ^ 2)

/-- The `cossigma` expression of the vdist loop body (line 114). -/
def vdistCossigma (U1 U2 lamb : ℝ) : ℝ :=
  Real.sin U1 * Real.sin U2 + Real.cos U1 * Real.cos U2 * Real.cos lamb

/-- `sigma = atan2(sinsigma, cossigma)` (line 117). -/
def vdistSigma (U1 U2 lamb : ℝ) : ℝ :=
  atan2 (vdistSinsigma U1 U2 lamb) (vdistCossigma U1 U2 lamb)

/-- `sinAlpha` with the `notZero` guard (lines 118-126): a zero denominator
raises ZeroDivisionError, caught and replaced by `0`. -/
def vdistSinAlpha (U1 U2 lamb : ℝ) : ℝ :=
  if Real.sin (vdistSigma U1 U2 lamb) = 0 then 0
  else Real.cos U1 * Real.cos U2 * Real.sin lamb / Real.sin (vdistSigma U1 U2 lamb)

/-- `alpha` from `sinAlpha` (lines 127-135); the `isnan` branch cannot fire
over ℝ. -/
def vdistAlpha (U1 U2 lamb : ℝ) : ℝ :=
  let sinAlpha := vdistSinAlpha U1 U2 lamb
  if 1 < sinAlpha ∨ |sinAlpha - 1| < 1e-16 then Real.pi / 2
  else Real.arcsin sinAlpha

/-- `cos2sigmam` (line 136). -/
def vdistCos2sigmam (U1 U2 lamb : ℝ) : ℝ :=
  Real.cos (vdistSigma U1 U2 lamb) -
    2 * Real.sin U1 * Real.sin U2 / Real.cos (vdistAlpha U1 U2 lamb) ^ 2

/-- The series coefficient `C` (line 137). -/
def vdistC (f alpha : ℝ) : ℝ :=
  f / 16 * Real.cos alpha ^ 2 * (4 + f * (4 - 3 * Real.cos alpha ^ 2))

/-- The lambda update (line 138). -/
def vdistLambNew (U1 U2 L f lamb : ℝ) : ℝ :=
  let sigma := vdistSigma U1 U2 lamb
  let alpha := vdistAlpha U1 U2 lamb
  let cos2sigmam := vdistCos2sigmam U1 U2 lamb
  let C := vdistC f alpha
  L + (1 - C) * f * Real.sin alpha *
    (sigma + C * Real.sin sigma *
      (cos2sigmam + C * Real.cos sigma * (-1 + 2.0 * cos2sigmam ^ 2)))

/-- State of the vdist fixed-point loop.  `capped` records that the 50-pass
cap fired (the code then emits its console warning and breaks);
`warninggiven` mirrors the flag of the source. -/
structure VdState where
  lamb : ℝ
  lambdaold : ℝ
  sigma : ℝ
  alpha : ℝ
  cos2sigmam : ℝ
  itercount : ℕ
  warninggiven : Bool
  capped : Bool

/-- The vdist `while` loop (lines 103-146).  `fuel` is the number of full
passes still allowed; the source enters with 50 (`itercount > 50` breaks).
At `fuel = 0` the source sets `lamb = pi` and breaks, keeping the loop
variables of the last completed pass. -/
def vdistLoop (U1 U2 L f : ℝ) : ℕ → VdState → VdState
  | 0, s => { s with lamb := Real.pi, capped := true }
  | fuel + 1, s =>
    let lambdaold := s.lamb
    let sigma := vdistSigma U1 U2 s.lamb
    let alpha := vdistAlpha U1 U2 s.lamb
    let cos2sigmam := vdistCos2sigmam U1 U2 s.lamb
    let lamb1 := vdistLambNew U1 U2 L f s.lamb
    if Real.pi < lamb1 then
      { lamb := Real.pi, lambdaold := Real.pi, sigma := sigma, alpha := alpha,
        cos2sigmam := cos2sigmam, itercount := s.itercount + 1,
        warninggiven := true, capped := false }
    else
      let s1 : VdState :=
        { lamb := lamb1, lambdaold := lambdaold, sigma := sigma, alpha := alpha,
          cos2sigmam := cos2sigmam, itercount := s.itercount + 1,
          warninggiven := s.warninggiven, capped := false }
      if |lamb1 - lambdaold| ≤ 1e-12 then s1
      else vdistLoop U1 U2 L f fuel s1

/-- Everything of vdist after input validation (lines 78-161), as a function
of the reduced latitudes, the reduced longitudes and the ellipsoid
parameters; returns `(dist_m, az)`. -/
def vdistCore (U1 U2 lon1 lon2 a b f : ℝ) : ℝ × ℝ :=
  let L := vdistL lon1 lon2
  let s := vdistLoop U1 U2 L f 50 ⟨L, L, 0, 0, 0, 0, false, false⟩
  let u2 := Real.cos s.alpha ^ 2 * (a ^ 2 - b ^ 2) / b ^ 2
  let A := 1 + u2 / 16384 * (4096 + u2 * (-768 + u2 * (320 - 175 * u2)))
  let B := u2 / 1024 * (256 + u2 * (-128 + u2 * (74 - 47 * u2)))
  let deltasigma := B * Real.sin s.sigma * (s.cos2sigmam + B / 4 *
    (Real.cos s.sigma * (-1 + 2 * s.cos2sigmam ^ 2) -
      B / 6 * s.cos2sigmam * (-3 + 4 * Real.sin s.sigma ^ 2) *
        (-3 + 4 * s.cos2sigmam ^ 2)))
  let dist_m := b * A * (s.sigma - deltasigma)
  let lamb0 := |s.lamb|
  let lamb := if sign (Real.sin (lon2 - lon1)) * sign (Real.sin lamb0) < 0
    then -lamb0 else lamb0
  let numer := Real.cos U2 * Real.sin lamb
  let denom := Real.cos U1 * Real.sin U2 - Real.sin U1 * Real.cos U2 * Real.cos lamb
  let a12 := jsRem (atan2 numer denom) (2 * Real.pi)
  (dist_m, degrees a12)

/-- vdist (vincenty.js lines 10-162): distance and forward azimuth between
two geodetic points.  The thrown assertion is modelled by `Except.error`. -/
def vdist (Lat1 Lon1 Lat2 Lon2 : ℝ) (ell : Option Ellipsoid) :
    Except String (ℝ × ℝ) :=
  let e := ell.getD wgs84
  if ¬(|Lat1| ≤ 90 ∧ |Lat2| ≤ 90) then
    Except.error "Input latitudes must be in [-90, 90] degrees."
  else
    let f := e.flattening
    Except.ok (vdistCore (reducedLat f Lat1) (reducedLat f Lat2)
      (jsRem (radians Lon1) (2 * Real.pi)) (jsRem (radians Lon2) (2 * Real.pi))
      e.semimajor_axis e.semiminor_axis f)

/-- Placeholder for the JS `NaN` initializers of the vreckon loop
variables; they are only ever read if the loop body never executes
(`|Rng/(bA) - 2π| ≤ 1e-12`), which no claim below exercises. -/
def nanR : ℝ := 0

/-- The vreckon `while` loop (lines 256-265); state is
`(sigma, sigmaP, sinSigma, cosSigma, cos2SigmaM)` and the returned tuple is
`(sigma, sinSigma, cosSigma, cos2SigmaM)`.  The source loop is uncapped;
`fuel` totalizes it (the spec documents possible non-convergence as an
accepted risk). -/
def vreckonLoop (B bA Rng sigma1 : ℝ) :
    ℕ → ℝ → ℝ → ℝ → ℝ → ℝ → ℝ × ℝ × ℝ × ℝ
  | fuel, sigma, sigmaP, sinSigma, cosSigma, cos2SigmaM =>
    if ¬(1e-12 < abs (sigma - sigmaP)) then (sigma, sinSigma, cosSigma, cos2SigmaM)
    else
      match fuel with
      | 0 => (sigma, sinSigma, cosSigma, cos2SigmaM)
      | fuel + 1 =>
        let cos2SigmaM := Real.cos (2 * sigma1 + sigma)
        let sinSigma := Real.sin sigma
        let cosSigma := Real.cos sigma
        let deltaSigma := B * sinSigma * (cos2SigmaM + B / 4 *
          (cosSigma * (-1 + 2 * cos2SigmaM * cos2SigmaM) -
            B / 6 * cos2SigmaM * (-3 + 4 * sinSigma * sinSigma) *
              (-3 + 4 * cos2SigmaM * cos2SigmaM)))
        vreckonLoop B bA Rng sigma1 fuel (Rng / bA + deltaSigma) sigma
          sinSigma cosSigma cos2SigmaM

/-- vreckon (vincenty.js lines 164-274): the Vincenty direct solution,
returning `(Lat2, Lon2)` in degrees. -/
def vreckon (Lat1 Lon1 Rng Azim : ℝ) (ell : Option Ellipsoid) (fuel : ℕ) :
    Except String (ℝ × ℝ) :=
  if ¬(|Lat1| ≤ 90.0) then
    Except.error "Input lat. must be between -90 and 90 deg., inclusive."
  else if ¬(0.0 ≤ Rng) then
    Except.error "Ground distance must be positive"
  else
    let e := ell.getD wgs84
    let a := e.semimajor_axis
    let b := e.semiminor_axis
    let f := e.flattening
    let lat1 := nudge (radians Lat1)
    let lon1 := radians Lon1
    let alpha1 := radians Azim
    let sinAlpha1 := Real.sin alpha1
    let cosAlpha1 := Real.cos alpha1
    let tanU1 := (1 - f) * Real.tan lat1
    let cosU1 := 1 / Real.sqrt (1 + tanU1 ^ 2)
    let sinU1 := tanU1 * cosU1
    let sigma1 := atan2 tanU1 cosAlpha1
    let sinAlpha := cosU1 * sinAlpha1
    let cosSqAlpha := 1 - sinAlpha * sinAlpha
    let uSq := cosSqAlpha * (a ^ 2 - b ^ 2) / b ^ 2
    let A := 1 + uSq / 16384 * (4096 + uSq * (-768 + uSq * (320 - 175 * uSq)))
    let B := uSq / 1024 * (256 + uSq * (-128 + uSq * (74 - 47 * uSq)))
    let r := vreckonLoop B (b * A) Rng sigma1 fuel (Rng / (b * A)) (2 * Real.pi)
      nanR nanR nanR
    let sigma := r.1
    let sinSigma := r.2.1
    let cosSigma := r.2.2.1
    let cos2SigmaM := r.2.2.2
    let tmp := sinU1 * sinSigma - cosU1 * cosSigma * cosAlpha1
    let lat2 := atan2 (sinU1 * cosSigma + cosU1 * sinSigma * cosAlpha1)
      ((1 - f) * Real.sqrt (sinAlpha * sinAlpha + tmp ^ 2))
    let lamb := atan2 (sinSigma * sinAlpha1)
      (cosU1 * cosSigma - sinU1 * sinSigma * cosAlpha1)
    let C := f / 16 * cosSqAlpha * (4 + f * (4 - 3 * cosSqAlpha))
    let L := lamb - f * (1 - C) * sinAlpha *
      (sigma + C * sinSigma * (cos2SigmaM + C * cosSigma *
        (-1 + 2 * cos2SigmaM * cos2SigmaM)))
    let lon2 := jsRem (degrees (lon1 + L)) 360
    Except.ok (degrees lat2, lon2)

/-- Great-circle arc length check of track2 (line 325). -/
def track2Gc (rlat1 rlon1 rlat2 rlon2 : ℝ) : ℝ :=
  2.0 * Real.arcsin (Real.sqrt (Real.sin ((rlat1 - rlat2) / 2) ^ 2 +
    Real.cos rlat1 * Real.cos rlat2 * Real.sin ((rlon1 - rlon2) / 2) ^ 2))

/-- The advance-and-correct loop of track2 (lines 334-341); returns the
intermediate latitudes and longitudes.  `ell` is the ellipsoid handed to
the azimuth-correction vdist call (line 336); the vreckon call (line 335)
is made without an ellipsoid argument, exactly as in the source. -/
def track2Loop (lat2 lon2 incdist : ℝ) (ell : Option Ellipsoid) (fuel : ℕ) :
    ℕ → ℝ → ℝ → ℝ → Except String (List ℝ × List ℝ)
  | 0, _, _, _ => Except.ok ([], [])
  | n + 1, latpt, lonpt, azimuth => do
    let p ← vreckon latpt lonpt incdist azimuth none fuel
    let q ← vdist p.1 p.2 lat2 lon2 ell
    let rest ← track2Loop lat2 lon2 incdist ell fuel n p.1 p.2 q.2
    Except.ok (p.1 :: rest.1, p.2 :: rest.2)

/-- track2 (vincenty.js lines 276-349): npts points along the geodesic.
The initial inverse solve (line 328) and each advance step (line 335) call
the solvers without an ellipsoid argument; only the correction call
(line 336) receives the resolved `ell`. -/
def track2 (lat1 lon1 lat2 lon2 : ℝ) (ell : Option Ellipsoid) (npts : ℕ)
    (deg : Bool) (fuel : ℕ) : Except String (List ℝ × List ℝ) :=
  let ellR := ell.getD wgs84
  if ¬(1 < npts) then Except.error "npts must be greater than 1"
  else if npts = 2 then Except.ok ([lat1, lat2], [lon1, lon2])
  else
    let rlat1 := if deg then radians lat1 else lat1
    let rlon1 := if deg then radians lon1 else lon1
    let rlat2 := if deg then radians lat2 else lat2
    let rlon2 := if deg then radians lon2 else lon2
    let gcarclen := track2Gc rlat1 rlon1 rlat2 rlon2
    if ¬(1e-12 ≤ abs (gcarclen - Real.pi)) then
      Except.error
        "cannot compute intermediate points on a great circle whose endpoints are antipodal"
    else do
      let da ← vdist lat1 lon1 lat2 lon2 none
      let incdist := da.1 / ((npts : ℝ) - 1)
      let mids ← track2Loop lat2 lon2 incdist (some ellR) fuel (npts - 2)
        lat1 lon1 da.2
      let lats := lat1 :: (mids.1 ++ [lat2])
      let lons := lon1 :: (mids.2 ++ [lon2])
      if deg then Except.ok (lats, lons)
      else Except.ok (lats.map radians, lons.map radians)

/-- Reference advance-and-correct loop following the specification reading
of track2: the direct-solver advance step explicitly uses the WGS-84
ellipsoid, and only the azimuth-correction inverse call receives `ell`. -/
def track2RefLoop (lat2 lon2 incdist : ℝ) (ell : Option Ellipsoid) (fuel : ℕ) :
    ℕ → ℝ → ℝ → ℝ → Except String (List ℝ × List ℝ)
  | 0, _, _, _ => Except.ok ([], [])
  | n + 1, latpt, lonpt, azimuth => do
    let p ← vreckon latpt lonpt incdist azimuth (some wgs84) fuel
    let q ← vdist p.1 p.2 lat2 lon2 ell
    let rest ← track2RefLoop lat2 lon2 incdist ell fuel n p.1 p.2 q.2
    Except.ok (p.1 :: rest.1, p.2 :: rest.2)

/-- Reference definition of track2 following the specification reading: the
initial inverse solve and every direct-solver advance step are computed
with the WGS-84 ellipsoid explicitly, regardless of `ell`; only the
per-step azimuth-correction inverse calls receive `ell`. -/
def track2Ref (lat1 lon1 lat2 lon2 : ℝ) (ell : Option Ellipsoid) (npts : ℕ)
    (deg : Bool) (fuel : ℕ) : Except String (List ℝ × List ℝ) :=
  let ellR := ell.getD wgs84
  if ¬(1 < npts) then Except.error "npts must be greater than 1"
  else if npts = 2 then Except.ok ([lat1, lat2], [lon1, lon2])
  else
    let rlat1 := if deg then radians lat1 else lat1
    let rlon1 := if deg then radians lon1 else lon1
    let rlat2 := if deg then radians lat2 else lat2
    let rlon2 := if deg then radians lon2 else lon2
    let gcarclen := track2Gc rlat1 rlon1 rlat2 rlon2
    if ¬(1e-12 ≤ abs (gcarclen - Real.pi)) then
      Except.error
        "cannot compute intermediate points on a great circle whose endpoints are antipodal"
    else do
      let da ← vdist lat1 lon1 lat2 lon2 (some wgs84)
      let incdist := da.1 / ((npts : ℝ) - 1)
      let mids ← track2RefLoop lat2 lon2 incdist (some ellR) fuel (npts - 2)
        lat1 lon1 da.2
      let lats := lat1 :: (mids.1 ++ [lat2])
      let lons := lon1 :: (mids.2 ++ [lon2])
      if deg then Except.ok (lats, lons)
      else Except.ok (lats.map radians, lons.map radians)

/-! Helper lemmas about the primitives. -/

theorem vdist_none_eq_some_wgs84 (Lat1 Lon1 Lat2 Lon2 : ℝ) :
    vdist Lat1 Lon1 Lat2 Lon2 none = vdist Lat1 Lon1 Lat2 Lon2 (some wgs84) := rfl

theorem vreckon_none_eq_some_wgs84 (Lat1 Lon1 Rng Azim : ℝ) (fuel : ℕ) :
    vreckon Lat1 Lon1 Rng Azim none fuel =
      vreckon Lat1 Lon1 Rng Azim (some wgs84) fuel := rfl

theorem track2Loop_eq_ref (lat2 lon2 incdist : ℝ) (ell : Option Ellipsoid)
    (fuel : ℕ) (n : ℕ) (latpt lonpt azimuth : ℝ) :
    track2Loop lat2 lon2 incdist ell fuel n latpt lonpt azimuth =
      track2RefLoop lat2 lon2 incdist ell fuel n latpt lonpt azimuth := by
  induction n generalizing latpt lonpt azimuth with
  | zero => rfl
  | succ n ih =>
    simp only [track2Loop, track2RefLoop, vreckon_none_eq_some_wgs84]
    cases vreckon latpt lonpt incdist azimuth (some wgs84) fuel with
    | error e => rfl
    | ok p =>
      simp only [bind, Except.bind]
      cases vdist p.1 p.2 lat2 lon2 ell with
      | error e => rfl
      | ok q => simp only [ih]

theorem vdist_error_msg (Lat1 Lon1 Lat2 Lon2 : ℝ) (ell : Option Ellipsoid)
    (e : String) (h : vdist Lat1 Lon1 Lat2 Lon2 ell = Except.error e) :
    e = "Input latitudes must be in [-90, 90] degrees." := by
  by_cases hg : |Lat1| ≤ 90 ∧ |Lat2| ≤ 90
  · rw [vdist, if_neg (not_not_intro hg)] at h
    exact absurd h (by simp)
  · rw [vdist, if_pos hg] at h
    exact (Except.error.inj h).symm

theorem vreckon_error_msg (Lat1 Lon1 Rng Azim : ℝ) (ell : Option Ellipsoid)
    (fuel : ℕ) (e : String)
    (h : vreckon Lat1 Lon1 Rng Azim ell fuel = Except.error e) :
    e = "Input lat. must be between -90 and 90 deg., inclusive." ∨
      e = "Ground distance must be positive" := by
  by_cases h1 : |Lat1| ≤ 90.0
  · by_cases h2 : 0.0 ≤ Rng
    · rw [vreckon, if_neg (not_not_intro h1), if_neg (not_not_intro h2)] at h
      exact absurd h (by simp)
    · rw [vreckon, if_neg (not_not_intro h1), if_pos h2] at h
      exact Or.inr (Except.error.inj h).symm
  · rw [vreckon, if_pos h1] at h
    exact Or.inl (Except.error.inj h).symm

theorem track2Loop_error_msg (lat2 lon2 incdist : ℝ) (ell : Option Ellipsoid)
    (fuel n : ℕ) (latpt lonpt azimuth : ℝ) (e : String)
    (h : track2Loop lat2 lon2 incdist ell fuel n latpt lonpt azimuth =
      Except.error e) :
    e = "Input latitudes must be in [-90, 90] degrees." ∨
      e = "Input lat. must be between -90 and 90 deg., inclusive." ∨
      e = "Ground distance must be positive" := by
  induction n generalizing latpt lonpt azimuth with
  | zero => exact absurd h (by simp [track2Loop])
  | succ n ih =>
    rw [track2Loop] at h
    cases hv : vreckon latpt lonpt incdist azimuth none fuel with
    | error ev =>
      rw [hv] at h
      have h2 : (Except.error ev : Except String (List ℝ × List ℝ)) =
        Except.error e := h
      rcases vreckon_error_msg _ _ _ _ _ _ _ hv with h1 | h1 <;>
        simp [← Except.error.inj h2, h1]
    | ok p =>
      rw [hv] at h
      have h3 : (do
          let q ← vdist p.1 p.2 lat2 lon2 ell
          let rest ← track2Loop lat2 lon2 incdist ell fuel n p.1 p.2 q.2
          Except.ok (p.1 :: rest.1, p.2 :: rest.2)) = Except.error e := h
      cases hd : vdist p.1 p.2 lat2 lon2 ell with
      | error ed =>
        rw [hd] at h3
        have h2 : (Except.error ed : Except String (List ℝ × List ℝ)) =
          Except.error e := h3
        exact Or.inl ((Except.error.inj h2) ▸ vdist_error_msg _ _ _ _ _ _ hd)
      | ok q =>
        rw [hd] at h3
        have h4 : (do
            let rest ← track2Loop lat2 lon2 incdist ell fuel n p.1 p.2 q.2
            Except.ok (p.1 :: rest.1, p.2 :: rest.2)) = Except.error e := h3
        cases hl : track2Loop lat2 lon2 incdist ell fuel n p.1 p.2 q.2 with
        | error el =>
          rw [hl] at h4
          have h2 : (Except.error el : Except String (List ℝ × List ℝ)) =
            Except.error e := h4
          exact ih _ _ _ ((Except.error.inj h2) ▸ hl)
        | ok r =>
          rw [hl] at h4
          exact Except.noConfusion
            (show Except.ok (p.1 :: r.1, p.2 :: r.2) = Except.error e from h4)

theorem vdist_precond_iff (Lat1 Lon1 Lat2 Lon2 : ℝ) (ell : Option Ellipsoid) :
    (∃ e, vdist Lat1 Lon1 Lat2 Lon2 ell = Except.error e) ↔
      90 < |Lat1| ∨ 90 < |Lat2| := by
  by_cases hg : |Lat1| ≤ 90 ∧ |Lat2| ≤ 90
  · simp only [vdist, if_neg (not_not_intro hg)]
    simp [hg.1.not_lt, hg.2.not_lt]
  · simp only [vdist, if_pos hg]
    simp only [Except.error.injEq, exists_eq', true_iff]
    rcases not_and_or.mp hg with h | h
    exacts [Or.inl (not_le.mp h), Or.inr (not_le.mp h)]

theorem vreckon_precond_iff (Lat1 Lon1 Rng Azim : ℝ) (ell : Option Ellipsoid)
    (fuel : ℕ) :
    (∃ e, vreckon Lat1 Lon1 Rng Azim ell fuel = Except.error e) ↔
      90 < |Lat1| ∨ Rng < 0 := by
  have e90 : (90.0 : ℝ) = 90 := by norm_num
  have e0 : (0.0 : ℝ) = 0 := by norm_num
  by_cases h1 : |Lat1| ≤ 90.0
  · by_cases h2 : 0.0 ≤ Rng
    · simp only [vreckon, if_neg (not_not_intro h1), if_neg (not_not_intro h2)]
      rw [e90] at h1; rw [e0] at h2
      simp [h1.not_lt, h2.not_lt]
    · simp only [vreckon, if_neg (not_not_intro h1), if_pos h2]
      rw [e0] at h2
      simp [not_le.mp h2]
  · simp only [vreckon, if_pos h1]
    rw [e90] at h1
    simp [not_le.mp h1]

theorem track2_precond_iff (lat1 lon1 lat2 lon2 : ℝ) (ell : Option Ellipsoid)
    (npts : ℕ) (deg : Bool) (fuel : ℕ) :
    (track2 lat1 lon1 lat2 lon2 ell npts deg fuel =
      Except.error "npts must be greater than 1") ↔ npts ≤ 1 := by
  constructor
  · intro h
    by_contra hc
    push_neg at hc
    rcases eq_or_ne npts 2 with h2 | h2
    · subst h2
      simp [track2] at h
    · simp only [track2] at h
      rw [if_neg (not_not_intro hc), if_neg h2] at h
      by_cases hga : (1e-12 : ℝ) ≤
          |track2Gc (if deg = true then radians lat1 else lat1)
            (if deg = true then radians lon1 else lon1)
            (if deg = true then radians lat2 else lat2)
            (if deg = true then radians lon2 else lon2) - Real.pi|
      · rw [if_neg (not_not_intro hga)] at h
        cases hv : vdist lat1 lon1 lat2 lon2 none with
        | error ev =>
          rw [hv] at h
          have h3 : (Except.error ev : Except String (List ℝ × List ℝ)) =
            Except.error "npts must be greater than 1" := h
          have := vdist_error_msg _ _ _ _ _ _ hv
          rw [Except.error.inj h3] at this
          exact absurd this (by decide)
        | ok da =>
          rw [hv] at h
          have h3 : (do
              let mids ← track2Loop lat2 lon2 (da.1 / ((npts : ℝ) - 1))
                (some (ell.getD wgs84)) fuel (npts - 2) lat1 lon1 da.2
              if deg = true then
                Except.ok (lat1 :: (mids.1 ++ [lat2]), lon1 :: (mids.2 ++ [lon2]))
              else Except.ok ((lat1 :: (mids.1 ++ [lat2])).map radians,
                (lon1 :: (mids.2 ++ [lon2])).map radians)) =
            Except.error "npts must be greater than 1" := h
          cases hl : track2Loop lat2 lon2 (da.1 / ((npts : ℝ) - 1))
              (some (ell.getD wgs84)) fuel (npts - 2) lat1 lon1 da.2 with
          | error el =>
            rw [hl] at h3
            have h4 : (Except.error el : Except String (List ℝ × List ℝ)) =
              Except.error "npts must be greater than 1" := h3
            have := track2Loop_error_msg _ _ _ _ _ _ _ _ _ _ hl
            rw [Except.error.inj h4] at this
            rcases this with h5 | h5 | h5 <;> exact absurd h5 (by decide)
          | ok mids =>
            rw [hl] at h3
            have h4 : (if deg = true then
                Except.ok (lat1 :: (mids.1 ++ [lat2]), lon1 :: (mids.2 ++ [lon2]))
              else Except.ok ((lat1 :: (mids.1 ++ [lat2])).map radians,
                (lon1 :: (mids.2 ++ [lon2])).map radians)) =
              Except.error "npts must be greater than 1" := h3
            cases deg <;> simp at h4
      · rw [if_pos hga] at h
        exact absurd (Except.error.inj h) (by decide)
  · intro h
    rw [track2, if_pos (Nat.not_lt.mpr h)]

/-- C7: each of the three operations raises a synchronous error before any
iteration exactly when its precondition is violated: vdist when a latitude
exceeds 90 degrees in magnitude, vreckon when the start latitude exceeds 90
degrees in magnitude or the range is negative, and track2 (with its own
distinguished message) exactly when npts ≤ 1. -/
theorem preconditions_raise_exactly (Lat1 Lon1 Lat2 Lon2 Rng Azim : ℝ)
    (la1 lo1 la2 lo2 : ℝ) (ell : Option Ellipsoid) (fuel npts : ℕ)
    (deg : Bool) :
    ((∃ e, vdist Lat1 Lon1 Lat2 Lon2 ell = Except.error e) ↔
      90 < |Lat1| ∨ 90 < |Lat2|) ∧
    ((∃ e, vreckon Lat1 Lon1 Rng Azim ell fuel = Except.error e) ↔
      90 < |Lat1| ∨ Rng < 0) ∧
    ((track2 la1 lo1 la2 lo2 ell npts deg fuel =
      Except.error "npts must be greater than 1") ↔ npts ≤ 1) :=
  ⟨vdist_precond_iff _ _ _ _ _, vreckon_precond_iff _ _ _ _ _ _,
    track2_precond_iff _ _ _ _ _ _ _ _⟩

/-- C6: with npts = 2, track2 returns exactly the two endpoint coordinates
unchanged, as ([lat1, lat2], [lon1, lon2]), for every input (antipodal
included), without invoking either solver. -/
theorem track2_npts2_endpoints (lat1 lon1 lat2 lon2 : ℝ)
    (ell : Option Ellipsoid) (deg : Bool) (fuel : ℕ) :
    track2 lat1 lon1 lat2 lon2 ell 2 deg fuel =
      Except.ok ([lat1, lat2], [lon1, lon2]) := by
  simp [track2]

/-- C4: track2 computes its initial inverse solve and every direct-solver
advance step with the default WGS-84 ellipsoid regardless of the supplied
ellipsoid; only the per-step azimuth-correction inverse calls receive it.
Hence track2 equals the reference definition `track2Ref` in which those
calls use WGS-84 explicitly. -/
theorem track2_advance_uses_wgs84 (lat1 lon1 lat2 lon2 : ℝ)
    (ell : Option Ellipsoid) (npts : ℕ) (deg : Bool) (fuel : ℕ)
    (_h : 2 < npts) :
    track2 lat1 lon1 lat2 lon2 ell npts deg fuel =
      track2Ref lat1 lon1 lat2 lon2 ell npts deg fuel := by
  unfold track2 track2Ref
  rw [vdist_none_eq_some_wgs84]
  simp only [track2Loop_eq_ref]

/-- Closed witness for the C4 theorem at npts = 3. -/
theorem track2_advance_uses_wgs84_witness :
    2 < 3 ∧ (track2 0 0 1 1 none 3 true 1 = track2Ref 0 0 1 1 none 3 true 1) :=
  ⟨by norm_num, track2_advance_uses_wgs84 0 0 1 1 none 3 true 1 (by norm_num)⟩

/-- C5: with npts > 2 and endpoints whose great-circle separation is within
1e-12 radians of π, track2 fails with the descriptive antipodal error
before producing any points. -/
theorem track2_antipodal_error (lat1 lon1 lat2 lon2 : ℝ)
    (ell : Option Ellipsoid) (npts : ℕ) (fuel : ℕ) (h2 : 2 < npts)
    (hga : |track2Gc (radians lat1) (radians lon1) (radians lat2)
      (radians lon2) - Real.pi| < 1e-12) :
    track2 lat1 lon1 lat2 lon2 ell npts true fuel =
      Except.error
        "cannot compute intermediate points on a great circle whose endpoints are antipodal" := by
  rw [track2, if_neg (not_not_intro (by omega : 1 < npts)),
    if_neg (by omega : npts ≠ 2)]
  simp only [if_true]
  rw [if_pos (not_le.mpr hga)]

/-- Closed witness for the C5 theorem: the equatorial points (0, 0) and
(0, 180) are exactly antipodal, and track2 with npts = 3 rejects them. -/
theorem track2_antipodal_error_witness :
    (2 < 3 ∧ |track2Gc (radians 0) (radians 0) (radians 0) (radians 180) -
      Real.pi| < 1e-12) ∧
    track2 0 0 0 180 none 3 true 1 =
      Except.error
        "cannot compute intermediate points on a great circle whose endpoints are antipodal" := by
  have hg : track2Gc (radians 0) (radians 0) (radians 0) (radians 180) -
      Real.pi = 0 := by
    have h180 : radians 180 = Real.pi := by
      rw [radians]; field_simp
    have hr0 : radians 0 = 0 := by rw [radians]; ring
    rw [track2Gc, h180, hr0]
    have hhalf : (0 - Real.pi) / 2 = -(Real.pi / 2) := by ring
    rw [hhalf]
    simp [Real.sin_neg, Real.sin_pi_div_two, Real.arcsin_one]
    ring
  have hga : |track2Gc (radians 0) (radians 0) (radians 0) (radians 180) -
      Real.pi| < 1e-12 := by rw [hg]; norm_num
  exact ⟨⟨by norm_num, hga⟩, track2_antipodal_error 0 0 0 180 none 3 1
    (by norm_num) hga⟩

/-- C8: in every iteration of vdist, the division defining sin(alpha) is
guarded: when sin(sigma) is exactly zero the solver substitutes
sin(alpha) = 0 (the caught ZeroDivisionError of notZero) and continues. -/
theorem vdist_sinAlpha_guarded (U1 U2 lamb : ℝ)
    (h : Real.sin (vdistSigma U1 U2 lamb) = 0) :
    vdistSinAlpha U1 U2 lamb = 0 := by
  rw [vdistSinAlpha, if_pos h]

/-- Closed witness for the C8 theorem at coincident equatorial inputs. -/
theorem vdist_sinAlpha_guarded_witness :
    Real.sin (vdistSigma 0 0 0) = 0 ∧ vdistSinAlpha 0 0 0 = 0 := by
  have hs : vdistSigma 0 0 0 = 0 := by
    rw [vdistSigma, vdistSinsigma, vdistCossigma]
    simp [atan2]
  exact ⟨by rw [hs]; exact Real.sin_zero,
    vdist_sinAlpha_guarded 0 0 0 (by rw [hs]; exact Real.sin_zero)⟩

theorem vdistLoop_spec (U1 U2 L f : ℝ) (fuel : ℕ) (s : VdState) :
    (vdistLoop U1 U2 L f fuel s).itercount ≤ s.itercount + fuel ∧
    ((vdistLoop U1 U2 L f fuel s).capped = true →
      (vdistLoop U1 U2 L f fuel s).lamb = Real.pi) ∧
    ((vdistLoop U1 U2 L f fuel s).capped = false →
      |(vdistLoop U1 U2 L f fuel s).lamb -
        (vdistLoop U1 U2 L f fuel s).lambdaold| ≤ 1e-12) := by
  induction fuel generalizing s with
  | zero =>
    refine ⟨Nat.le_refl _, fun _ => rfl, fun hc => ?_⟩
    exact absurd hc (by simp [vdistLoop])
  | succ n ih =>
    simp only [vdistLoop]
    split_ifs with h1 h2
    · refine ⟨?_, fun _ => rfl, fun _ => ?_⟩
      · show s.itercount + 1 ≤ s.itercount + (n + 1)
        omega
      · show |Real.pi - Real.pi| ≤ 1e-12
        simp only [sub_self, abs_zero]
        norm_num
    · refine ⟨?_, fun hc => absurd hc (by simp), fun _ => h2⟩
      show s.itercount + 1 ≤ s.itercount + (n + 1)
      omega
    · have h3 := ih ⟨vdistLambNew U1 U2 L f s.lamb, s.lamb,
        vdistSigma U1 U2 s.lamb, vdistAlpha U1 U2 s.lamb,
        vdistCos2sigmam U1 U2 s.lamb, s.itercount + 1, s.warninggiven, false⟩
      refine ⟨h3.1.trans ?_, h3.2.1, h3.2.2⟩
      show s.itercount + 1 + n ≤ s.itercount + (n + 1)
      omega

/-- C3: the vdist fixed-point loop terminates for every input: from any
start state it performs at most `fuel` further passes (50 at the loop
entry of vdist), it exits early as soon as two successive lambda iterates
differ by at most 1e-12 (or the λ > π clamp forces both to π), and on
hitting the 50-pass cap it sets lambda = π (the capped flag, at which the
source emits its non-fatal console warning) and proceeds with a result
instead of looping forever or raising. -/
theorem vdistLoop_terminates (U1 U2 L f : ℝ) :
    (vdistLoop U1 U2 L f 50 ⟨L, L, 0, 0, 0, 0, false, false⟩).itercount ≤ 50 ∧
    ((vdistLoop U1 U2 L f 50 ⟨L, L, 0, 0, 0, 0, false, false⟩).capped = true →
      (vdistLoop U1 U2 L f 50 ⟨L, L, 0, 0, 0, 0, false, false⟩).lamb =
        Real.pi) ∧
    ((vdistLoop U1 U2 L f 50 ⟨L, L, 0, 0, 0, 0, false, false⟩).capped = false →
      |(vdistLoop U1 U2 L f 50 ⟨L, L, 0, 0, 0, 0, false, false⟩).lamb -
        (vdistLoop U1 U2 L f 50 ⟨L, L, 0, 0, 0, 0, false, false⟩).lambdaold| ≤
          1e-12) :=
  vdistLoop_spec U1 U2 L f 50 ⟨L, L, 0, 0, 0, 0, false, false⟩

/-! Symmetry of the vdist loop body under exchanging the two endpoints. -/

theorem vdistSinsigma_symm (U1 U2 l : ℝ) :
    vdistSinsigma U1 U2 l = vdistSinsigma U2 U1 l := by
  unfold vdistSinsigma
  congr 1
  have p1 := Real.sin_sq_add_cos_sq U1
  have p2 := Real.sin_sq_add_cos_sq U2
  have pl := Real.sin_sq_add_cos_sq l
  linear_combination (-(Real.sin l ^ 2 * Real.cos U2 ^ 2)) * p1 +
    (Real.sin l ^ 2 * Real.cos U1 ^ 2) * p2 +
    (-(Real.cos U1 ^ 2 * Real.sin U2 ^ 2 - Real.cos U2 ^ 2 * Real.sin U1 ^ 2)) * pl

theorem vdistCossigma_symm (U1 U2 l : ℝ) :
    vdistCossigma U1 U2 l = vdistCossigma U2 U1 l := by
  unfold vdistCossigma; ring

theorem vdistSigma_symm (U1 U2 l : ℝ) :
    vdistSigma U1 U2 l = vdistSigma U2 U1 l := by
  rw [vdistSigma, vdistSigma, vdistSinsigma_symm, vdistCossigma_symm]

theorem vdistSinAlpha_symm (U1 U2 l : ℝ) :
    vdistSinAlpha U1 U2 l = vdistSinAlpha U2 U1 l := by
  unfold vdistSinAlpha
  rw [vdistSigma_symm]
  split_ifs with h
  · rfl
  · ring

theorem vdistAlpha_symm (U1 U2 l : ℝ) :
    vdistAlpha U1 U2 l = vdistAlpha U2 U1 l := by
  simp only [vdistAlpha]
  rw [vdistSinAlpha_symm]

theorem vdistCos2sigmam_symm (U1 U2 l : ℝ) :
    vdistCos2sigmam U1 U2 l = vdistCos2sigmam U2 U1 l := by
  unfold vdistCos2sigmam
  rw [vdistSigma_symm, vdistAlpha_symm]
  ring

theorem vdistLambNew_symm (U1 U2 L f l : ℝ) :
    vdistLambNew U1 U2 L f l = vdistLambNew U2 U1 L f l := by
  simp only [vdistLambNew]
  rw [vdistSigma_symm, vdistAlpha_symm, vdistCos2sigmam_symm]

theorem vdistLoop_symm (U1 U2 L f : ℝ) (fuel : ℕ) (s : VdState) :
    vdistLoop U1 U2 L f fuel s = vdistLoop U2 U1 L f fuel s := by
  induction fuel generalizing s with
  | zero => rfl
  | succ n ih =>
    simp only [vdistLoop]
    rw [vdistLambNew_symm, vdistSigma_symm, vdistAlpha_symm, vdistCos2sigmam_symm]
    split_ifs with h1 h2
    · rfl
    · rfl
    · exact ih _

theorem vdistL_symm (lon1 lon2 : ℝ) : vdistL lon1 lon2 = vdistL lon2 lon1 := by
  simp only [vdistL]
  rw [abs_sub_comm]

theorem vdistCore_dist_symm (U1 U2 lon1 lon2 a b f : ℝ) :
    (vdistCore U1 U2 lon1 lon2 a b f).1 = (vdistCore U2 U1 lon2 lon1 a b f).1 := by
  simp only [vdistCore]
  rw [vdistL_symm, vdistLoop_symm]

/-- C9: the distance computed by vdist is symmetric under swapping the two
endpoints, for every pair of points and every ellipsoid (the precondition
check is itself symmetric, so this also holds on the error path). -/
theorem vdist_distance_symm (Lat1 Lon1 Lat2 Lon2 : ℝ) (ell : Option Ellipsoid) :
    (vdist Lat1 Lon1 Lat2 Lon2 ell).map Prod.fst =
      (vdist Lat2 Lon2 Lat1 Lon1 ell).map Prod.fst := by
  by_cases hg : |Lat1| ≤ 90 ∧ |Lat2| ≤ 90
  · have hswap : ¬¬(|Lat2| ≤ 90 ∧ |Lat1| ≤ 90) := not_not_intro ⟨hg.2, hg.1⟩
    simp only [vdist, if_neg (not_not_intro hg), if_neg hswap, Except.map]
    exact congrArg _ (vdistCore_dist_symm _ _ _ _ _ _ _)
  · have hg2 : ¬(|Lat2| ≤ 90 ∧ |Lat1| ≤ 90) := fun hx => hg ⟨hx.2, hx.1⟩
    simp only [vdist, if_pos hg, if_pos hg2, Except.map]

/-! Arithmetic facts about the primitives, used by the concrete
evaluations below. -/

theorem atan2_of_pos (y x : ℝ) (hx : 0 < x) :
    atan2 y x = Real.arctan (y / x) := by
  rw [atan2, if_pos hx]

theorem atan2_zero_of_pos (x : ℝ) (hx : 0 < x) : atan2 0 x = 0 := by
  rw [atan2_of_pos _ _ hx, zero_div, Real.arctan_zero]

theorem atan2_neg_zero (y : ℝ) (hy : y < 0) : atan2 y 0 = -(Real.pi / 2) := by
  rw [atan2, if_neg (lt_irrefl 0), if_neg (lt_irrefl 0),
    if_neg (asymm hy), if_pos hy]

theorem degrees_radians (x : ℝ) : degrees (radians x) = x := by
  rw [degrees, radians]
  field_simp

theorem radians_zero : radians 0 = 0 := by rw [radians]; ring

theorem jsRem_zero (y : ℝ) : jsRem 0 y = 0 := by
  simp [jsRem, jsTrunc]

theorem jsRem_eq_self (x y : ℝ) (hy : 0 < y) (h : |x| < y) : jsRem x y = x := by
  have hd : |x / y| < 1 := by
    rw [abs_div, abs_of_pos hy]
    exact (div_lt_one hy).mpr h
  rw [jsRem, jsTrunc]
  split_ifs with hx
  · have h0 : ⌊x / y⌋ = 0 := by
      rw [Int.floor_eq_zero_iff]
      exact ⟨hx, (abs_lt.mp hd).2⟩
    rw [h0]
    simp
  · have h0 : ⌈x / y⌉ = 0 := by
      rw [Int.ceil_eq_zero_iff]
      exact ⟨(abs_lt.mp hd).1, (not_le.mp hx).le⟩
    rw [h0]
    simp

theorem abs_radians_le_halfpi (x : ℝ) (h : |x| ≤ 90) :
    |radians x| ≤ Real.pi / 2 := by
  rw [radians, abs_mul, abs_of_pos (by positivity : (0:ℝ) < Real.pi / 180)]
  calc |x| * (Real.pi / 180) ≤ 90 * (Real.pi / 180) :=
        mul_le_mul_of_nonneg_right h (by positivity)
    _ = Real.pi / 2 := by ring

theorem vreckonLoop_done (B bA Rng sigma1 : ℝ) (fuel : ℕ)
    (sigma sigmaP sinS cosS c2m : ℝ) (h : ¬(1e-12 < |sigma - sigmaP|)) :
    vreckonLoop B bA Rng sigma1 fuel sigma sigmaP sinS cosS c2m =
      (sigma, sinS, cosS, c2m) := by
  cases fuel with
  | zero => rw [vreckonLoop, if_pos h]
  | succ n => rw [vreckonLoop, if_pos h]

theorem vreckonLoop_zero_range (B bA sigma1 x y z : ℝ) (m : ℕ) :
    vreckonLoop B bA 0 sigma1 (m + 1) 0 (2 * Real.pi) x y z =
      (0, 0, 1, Real.cos (2 * sigma1)) := by
  have h2pi : (1e-12 : ℝ) < |0 - 2 * Real.pi| := by
    rw [zero_sub, abs_neg, abs_of_pos (by positivity)]
    nlinarith [Real.pi_gt_three]
  rw [vreckonLoop, if_neg (not_not_intro h2pi)]
  show vreckonLoop B bA 0 sigma1 m
      (0 / bA + B * Real.sin 0 * (Real.cos (2 * sigma1 + 0) + B / 4 *
        (Real.cos 0 * (-1 + 2 * Real.cos (2 * sigma1 + 0) *
          Real.cos (2 * sigma1 + 0)) -
          B / 6 * Real.cos (2 * sigma1 + 0) *
            (-3 + 4 * Real.sin 0 * Real.sin 0) *
            (-3 + 4 * Real.cos (2 * sigma1 + 0) * Real.cos (2 * sigma1 + 0)))))
      0 (Real.sin 0) (Real.cos 0) (Real.cos (2 * sigma1 + 0)) =
    (0, 0, 1, Real.cos (2 * sigma1))
  simp only [Real.sin_zero, Real.cos_zero, add_zero, zero_div, mul_zero,
    zero_mul, zero_add]
  exact vreckonLoop_done B bA 0 sigma1 m 0 0 0 1 (Real.cos (2 * sigma1))
    (by rw [sub_zero, abs_zero]; norm_num)

theorem vreckon_zero_range_aux (Lat1 Lon1 Azim : ℝ) (ell : Ellipsoid)
    (fuel : ℕ) (h1 : |Lat1| ≤ 90)
    (h2 : ¬(abs (Real.pi / 2 - abs (radians Lat1)) < 1e-10))
    (h3 : |Lon1| < 360) (hb : 0 < ell.semiminor_axis)
    (hba : ell.semiminor_axis ≤ ell.semimajor_axis) (hf : 1 ≤ fuel) :
    vreckon Lat1 Lon1 0 Azim (some ell) fuel = Except.ok (Lat1, Lon1) := by
  obtain ⟨m, rfl⟩ : ∃ k, fuel = k + 1 := ⟨fuel - 1, by omega⟩
  have ha : 0 < ell.semimajor_axis := lt_of_lt_of_le hb hba
  have h1fpos : 0 < 1 - ell.flattening := by
    rw [Ellipsoid.flattening]
    have : (ell.semimajor_axis - ell.semiminor_axis) / ell.semimajor_axis < 1 :=
      (div_lt_one ha).mpr (by linarith)
    linarith
  have h90 : |Lat1| ≤ 90.0 := by
    rw [show (90.0 : ℝ) = 90 by norm_num]
    exact h1
  have hrng : (0.0 : ℝ) ≤ 0 := by norm_num
  have hn : nudge (radians Lat1) = radians Lat1 := by rw [nudge, if_neg h2]
  simp only [vreckon, if_neg (not_not_intro h90), if_neg (not_not_intro hrng),
    Option.getD_some]
  rw [hn, zero_div, vreckonLoop_zero_range]
  simp only [mul_zero, zero_mul, mul_one, add_zero, zero_add, sub_zero,
    zero_sub]
  set f := ell.flattening with hf0
  set t := (1 - f) * Real.tan (radians Lat1) with ht
  set cU := 1 / Real.sqrt (1 + t ^ 2) with hcU
  have hcUpos : 0 < cU := by
    rw [hcU]
    positivity
  have hsq : cU * Real.sin (radians Azim) * (cU * Real.sin (radians Azim)) +
      (-(cU * Real.cos (radians Azim))) ^ 2 = cU ^ 2 := by
    linear_combination (cU ^ 2) * Real.sin_sq_add_cos_sq (radians Azim)
  rw [hsq, Real.sqrt_sq hcUpos.le]
  have hx : 0 < (1 - f) * cU := mul_pos h1fpos hcUpos
  rw [atan2_of_pos _ _ hx, atan2_zero_of_pos _ hcUpos, add_zero,
    degrees_radians, jsRem_eq_self Lon1 360 (by norm_num) h3]
  have harg : t * cU / ((1 - f) * cU) = Real.tan (radians Lat1) := by
    rw [ht]
    field_simp
    ring
  have habs : abs (radians Lat1) < Real.pi / 2 := by
    have h2a : 1e-10 ≤ abs (Real.pi / 2 - abs (radians Lat1)) := not_lt.mp h2
    have hle : abs (radians Lat1) ≤ Real.pi / 2 := abs_radians_le_halfpi Lat1 h1
    have hnn : (0 : ℝ) ≤ Real.pi / 2 - abs (radians Lat1) := by linarith
    rw [abs_of_nonneg hnn] at h2a
    linarith
  rw [harg, Real.arctan_tan (neg_lt_of_abs_lt habs) (lt_of_abs_lt habs),
    degrees_radians]

/-- C10: vreckon with range 0 is the identity on the starting point, for
every start latitude in [-90, 90] degrees whose radian value is not within
1e-10 of a pole, every start longitude of magnitude below 360 degrees,
every azimuth, and every (non-degenerate) ellipsoid. -/
theorem vreckon_zero_range_identity (Lat1 Lon1 Azim : ℝ) (ell : Ellipsoid)
    (fuel : ℕ) (h1 : |Lat1| ≤ 90)
    (h2 : ¬(abs (Real.pi / 2 - abs (radians Lat1)) < 1e-10))
    (h3 : |Lon1| < 360) (hb : 0 < ell.semiminor_axis)
    (hba : ell.semiminor_axis ≤ ell.semimajor_axis) (hf : 1 ≤ fuel) :
    vreckon Lat1 Lon1 0 Azim (some ell) fuel = Except.ok (Lat1, Lon1) :=
  vreckon_zero_range_aux Lat1 Lon1 Azim ell fuel h1 h2 h3 hb hba hf

/-- Closed witness for the C10 theorem at Lat1 = 45, Lon1 = 100, Azim = 33
on WGS-84 with one unit of loop fuel. -/
theorem vreckon_zero_range_identity_witness :
    (|(45 : ℝ)| ≤ 90 ∧ ¬(abs (Real.pi / 2 - abs (radians 45)) < 1e-10) ∧
      |(100 : ℝ)| < 360 ∧ 0 < wgs84.semiminor_axis ∧
      wgs84.semiminor_axis ≤ wgs84.semimajor_axis ∧ 1 ≤ 1) ∧
    vreckon 45 100 0 33 (some wgs84) 1 = Except.ok (45, 100) := by
  have hr : radians 45 = Real.pi / 4 := by rw [radians]; ring
  have h2 : ¬(abs (Real.pi / 2 - abs (radians 45)) < 1e-10) := by
    have hv : abs (Real.pi / 2 - abs (radians 45)) = Real.pi / 4 := by
      rw [hr, abs_of_pos (by positivity : (0 : ℝ) < Real.pi / 4)]
      have hq : Real.pi / 2 - Real.pi / 4 = Real.pi / 4 := by ring
      rw [hq, abs_of_pos (by positivity : (0 : ℝ) < Real.pi / 4)]
    rw [hv]
    push_neg
    nlinarith [Real.pi_gt_three]
  refine ⟨⟨by norm_num, h2, by norm_num, ?_, ?_, le_rfl⟩, ?_⟩
  · show (0 : ℝ) < 6356752.31424518
    norm_num
  · show (6356752.31424518 : ℝ) ≤ 6378137.0
    norm_num
  · exact vreckon_zero_range_identity 45 100 33 wgs84 1 (by norm_num) h2
      (by norm_num)
      (by show (0 : ℝ) < 6356752.31424518; norm_num)
      (by show (6356752.31424518 : ℝ) ≤ 6378137.0; norm_num) le_rfl

/-- C2 fails on the code: at Lat1 = 0, Lon1 = 200, Rng = 0, Azim = 0 with
the default WGS-84 ellipsoid, vreckon returns lon2 = 200, outside
(-180, 180], because the JS remainder `lon2 % 360` keeps the dividend's
sign and magnitude and performs no shift into (-180, 180]. -/
theorem vreckon_lon2_out_of_interval :
    vreckon 0 200 0 0 none 1 = Except.ok (0, 200) ∧
      ¬(-180 < (200 : ℝ) ∧ (200 : ℝ) ≤ 180) := by
  refine ⟨?_, by norm_num⟩
  rw [vreckon_none_eq_some_wgs84]
  have h2 : ¬(abs (Real.pi / 2 - abs (radians 0)) < 1e-10) := by
    rw [radians_zero, abs_zero, sub_zero, abs_of_pos (by positivity)]
    push_neg
    nlinarith [Real.pi_gt_three]
  exact vreckon_zero_range_aux 0 200 0 wgs84 1 (by norm_num) h2 (by norm_num)
    (by show (0 : ℝ) < 6356752.31424518; norm_num)
    (by show (6356752.31424518 : ℝ) ≤ 6378137.0; norm_num) le_rfl

/-! Evaluation of the vdist loop body on the equator (U1 = U2 = 0) for a
longitude difference in (0, π/2): the azimuth degenerates to due
east/west, alpha = π/2, and the lambda update is linear. -/

theorem sign_of_pos (x : ℝ) (h : 0 < x) : sign x = 1 := by
  rw [sign, if_pos h]

theorem sign_of_neg (x : ℝ) (h : x < 0) : sign x = -1 := by
  rw [sign, if_neg (asymm h), if_pos h]

theorem vdistSinsigma_equator (l : ℝ) (h : 0 ≤ Real.sin l) :
    vdistSinsigma 0 0 l = Real.sin l := by
  rw [vdistSinsigma]
  simp [Real.sin_zero, Real.cos_zero]
  rw [Real.sqrt_sq h]

theorem vdistCossigma_equator (l : ℝ) : vdistCossigma 0 0 l = Real.cos l := by
  rw [vdistCossigma]
  simp

theorem vdistSigma_equator (l : ℝ) (h1 : 0 < l) (h2 : l < Real.pi / 2) :
    vdistSigma 0 0 l = l := by
  have hpi := Real.pi_pos
  have hs : 0 < Real.sin l := Real.sin_pos_of_pos_of_lt_pi h1 (by linarith)
  have hc : 0 < Real.cos l := Real.cos_pos_of_mem_Ioo ⟨by linarith, h2⟩
  rw [vdistSigma, vdistSinsigma_equator l hs.le, vdistCossigma_equator,
    atan2_of_pos _ _ hc, ← Real.tan_eq_sin_div_cos,
    Real.arctan_tan (by linarith) h2]

theorem vdistSinAlpha_equator (l : ℝ) (h1 : 0 < l) (h2 : l < Real.pi / 2) :
    vdistSinAlpha 0 0 l = 1 := by
  have hpi := Real.pi_pos
  have hs : 0 < Real.sin l := Real.sin_pos_of_pos_of_lt_pi h1 (by linarith)
  rw [vdistSinAlpha, vdistSigma_equator l h1 h2, if_neg hs.ne']
  rw [Real.cos_zero]
  field_simp

theorem vdistAlpha_equator (l : ℝ) (h1 : 0 < l) (h2 : l < Real.pi / 2) :
    vdistAlpha 0 0 l = Real.pi / 2 := by
  simp only [vdistAlpha, vdistSinAlpha_equator l h1 h2]
  rw [if_pos (Or.inr (by norm_num))]

theorem vdistCos2sigmam_equator (l : ℝ) (h1 : 0 < l) (h2 : l < Real.pi / 2) :
    vdistCos2sigmam 0 0 l = Real.cos l := by
  rw [vdistCos2sigmam, vdistSigma_equator l h1 h2]
  simp

theorem vdistLambNew_equator (L f l : ℝ) (h1 : 0 < l) (h2 : l < Real.pi / 2) :
    vdistLambNew 0 0 L f l = L + f * l := by
  simp only [vdistLambNew, vdistSigma_equator l h1 h2,
    vdistAlpha_equator l h1 h2, vdistCos2sigmam_equator l h1 h2, vdistC]
  rw [Real.cos_pi_div_two, Real.sin_pi_div_two]
  ring

theorem vdistLoop_one_pass (U1 U2 L f : ℝ) (n : ℕ) (s : VdState)
    (hclamp : ¬(Real.pi < vdistLambNew U1 U2 L f s.lamb))
    (hconv : |vdistLambNew U1 U2 L f s.lamb - s.lamb| ≤ 1e-12) :
    vdistLoop U1 U2 L f (n + 1) s =
      ⟨vdistLambNew U1 U2 L f s.lamb, s.lamb, vdistSigma U1 U2 s.lamb,
        vdistAlpha U1 U2 s.lamb, vdistCos2sigmam U1 U2 s.lamb,
        s.itercount + 1, s.warninggiven, false⟩ := by
  rw [vdistLoop, if_neg hclamp, if_pos hconv]

theorem vdistCore_eval_west :
    (vdistCore 0 0 0 (radians (-1e-8)) wgs84.semimajor_axis
      wgs84.semiminor_axis wgs84.flattening).2 = -90 := by
  have hpi := Real.pi_pos
  have hf0 : 0 < wgs84.flattening := by
    show (0 : ℝ) < (6378137.0 - 6356752.31424518) / 6378137.0
    norm_num
  have hf1 : wgs84.flattening < 0.0034 := by
    show (6378137.0 - 6356752.31424518) / 6378137.0 < 0.0034
    norm_num
  set F := wgs84.flattening with hF
  set L : ℝ := 1e-8 * (Real.pi / 180) with hLdef
  have hL0 : 0 < L := by rw [hLdef]; positivity
  have hL2 : L < Real.pi / 2 := by rw [hLdef]; nlinarith
  have hFlt : F < 1 := lt_trans hf1 (by norm_num)
  have hlam0 : 0 < L + F * L := by nlinarith [mul_pos hf0 hL0]
  have hlam2 : L + F * L < Real.pi / 2 := by
    have hFL : F * L < L := mul_lt_of_lt_one_left hL0 hFlt
    have h2L : 2 * L < Real.pi / 2 := by rw [hLdef]; nlinarith
    linarith
  have hsin1 : 0 < Real.sin (L + F * L) :=
    Real.sin_pos_of_pos_of_lt_pi hlam0 (by linarith)
  have hsinL : 0 < Real.sin L := Real.sin_pos_of_pos_of_lt_pi hL0 (by linarith)
  have hclamp : ¬(Real.pi < vdistLambNew 0 0 L F L) := by
    rw [vdistLambNew_equator L F L hL0 hL2]
    push_neg
    linarith
  have hconv : |vdistLambNew 0 0 L F L - L| ≤ 1e-12 := by
    rw [vdistLambNew_equator L F L hL0 hL2,
      show L + F * L - L = F * L by ring, abs_of_pos (mul_pos hf0 hL0), hLdef]
    have hplt : Real.pi < 3.15 := Real.pi_lt_d2
    have hprod : F * Real.pi < 0.0034 * 3.15 := by nlinarith
    calc F * (1e-8 * (Real.pi / 180)) = F * Real.pi * (1e-8 / 180) := by ring
      _ ≤ 0.0034 * 3.15 * (1e-8 / 180) := by nlinarith
      _ ≤ 1e-12 := by norm_num
  have hloop : vdistLoop 0 0 L F 50 ⟨L, L, 0, 0, 0, 0, false, false⟩ =
      ⟨L + F * L, L, L, Real.pi / 2, Real.cos L, 1, false, false⟩ := by
    rw [show (50 : ℕ) = 49 + 1 from rfl,
      vdistLoop_one_pass 0 0 L F 49 ⟨L, L, 0, 0, 0, 0, false, false⟩ hclamp hconv]
    simp only [vdistLambNew_equator L F L hL0 hL2, vdistSigma_equator L hL0 hL2,
      vdistAlpha_equator L hL0 hL2, vdistCos2sigmam_equator L hL0 hL2, zero_add]
  have hneg : radians (-1e-8) - 0 = -L := by rw [hLdef, radians]; ring
  have hLv : vdistL 0 (radians (-1e-8)) = L := by
    simp only [vdistL]
    rw [hneg, abs_neg, abs_of_pos hL0, if_neg (not_lt.mpr (by linarith))]
  simp only [vdistCore, hLv, hloop, hneg, Real.sin_neg, abs_of_pos hlam0,
    Real.cos_zero, Real.sin_zero, one_mul, mul_zero, zero_mul, sub_zero,
    zero_sub, mul_one,
    sign_of_neg _ (neg_lt_zero.mpr hsinL), sign_of_pos _ hsin1]
  norm_num
  rw [show (-(F * L) + -L : ℝ) = -(L + F * L) by ring, Real.sin_neg,
    atan2_neg_zero _ (neg_lt_zero.mpr hsin1),
    jsRem_eq_self _ _ (by positivity)
      (by rw [abs_neg, abs_of_pos (by positivity)]; linarith),
    degrees]
  field_simp
  ring

/-- C1 fails on the code: at Lat1 = 0, Lon1 = 0, Lat2 = 0, Lon2 = -1e-8
(a westward pair on the equator, default WGS-84), vdist returns azimuth
-90, outside [0, 360): the JS remainder `a12 %= 2π` keeps the sign of
atan2's negative result instead of shifting it into [0, 2π). -/
theorem vdist_azimuth_not_normalized :
    (vdist 0 0 0 (-1e-8) none).map Prod.snd = Except.ok (-90) ∧
      ¬((0 : ℝ) ≤ -90) := by
  refine ⟨?_, by norm_num⟩
  have hguard : ¬¬((|(0 : ℝ)| ≤ 90) ∧ (|(0 : ℝ)| ≤ 90)) :=
    not_not_intro (by norm_num)
  simp only [vdist, Option.getD_none, if_neg hguard, Except.map]
  have hU : reducedLat wgs84.flattening 0 = 0 := by
    have hcond : ¬(abs (Real.pi / 2 - abs (0 : ℝ)) < 1e-10) := by
      rw [abs_zero, sub_zero, abs_of_pos (by positivity)]
      push_neg
      nlinarith [Real.pi_gt_three]
    rw [reducedLat, radians_zero, nudge, if_neg hcond, Real.tan_zero,
      mul_zero, Real.arctan_zero]
  have habs : |radians (-1e-8)| < 2 * Real.pi := by
    rw [radians, abs_mul, abs_of_pos (by positivity : (0 : ℝ) < Real.pi / 180),
      show |(-1e-8 : ℝ)| = 1e-8 by rw [abs_neg, abs_of_pos] ; norm_num]
    nlinarith [Real.pi_pos]
  rw [hU, radians_zero, jsRem_zero,
    jsRem_eq_self _ _ (by positivity) habs]
  exact congrArg Except.ok vdistCore_eval_west

end

end Tsmap3d
